import Mathlib

/-!
Shallow embedding of the OVOS intent-service dispatch core
(`ovos_core/intent_services/__init__.py`): the utterance handler, the
pipeline dispatcher, language disambiguation, session validation and the
context-management handlers, together with theorems about their behaviour.

Python values appearing in message `data` / `context` dictionaries are
modelled by the inductive `PyVal`; dictionaries preserve insertion order
as Python dicts do.  Exceptions are modelled with `Except String`.
External collaborators (interpreter stages, transformer plugins, the
locale helpers) are parameters of the model, constrained only by their
documented interface.  Pieces of behaviour that live in external
libraries (SessionManager, ContextManager, Message.forward/reply) are
modelled from the spec and marked as such in their doc comments.
-/

namespace OVOS

/-- A Python value stored in a message's `data` or `context` dictionary.
The dispatch core only ever stores scalars, flat lists of strings (the
utterance candidates) and one opaque serialized-session record, so those
are the constructors provided. -/
inductive PyVal where
  | none : PyVal
  | bool (b : Bool) : PyVal
  | int (n : Int) : PyVal
  | str (s : String) : PyVal
  | list (xs : List String) : PyVal
  | sessionData (session_id lang : String) (active_skills pipeline : List String) : PyVal
deriving DecidableEq, Repr

/-- Python truthiness of a `PyVal` (`bool(v)`). -/
def PyVal.truthy : PyVal → Bool
  | .none => false
  | .bool b => b
  | .int n => n ≠ 0
  | .str s => s ≠ ""
  | .list xs => ¬ xs.isEmpty
  | .sessionData _ _ _ _ => true

/-- Is the value a Python `str`?  (`isinstance(v, str)`). -/
def PyVal.isStr : PyVal → Bool
  | .str _ => true
  | _ => false

/-- Python `repr` of a value (used by `str` on containers). -/
def PyVal.pyRepr : PyVal → String
  | .none => "None"
  | .bool b => if b then "True" else "False"
  | .int n => toString n
  | .str s => "\x27" ++ s ++ "\x27"
  | .list xs => "[" ++ String.intercalate ", " (xs.map (fun s => "\x27" ++ s ++ "\x27")) ++ "]"
  | .sessionData sid _ _ _ => "<Session " ++ sid ++ ">"

/-- Python `str(v)` coercion. -/
def PyVal.pyStr : PyVal → String
  | .str s => s
  | v => v.pyRepr

/-- An insertion-ordered string-keyed dictionary of Python values,
modelling a Python `dict`. -/
structure Dict where
  entries : List (String × PyVal)
deriving DecidableEq, Repr

/-- `d.get(k)`: the value stored at `k`, if any. -/
def Dict.get (d : Dict) (k : String) : Option PyVal :=
  (d.entries.find? (fun kv => kv.1 = k)).map (fun kv => kv.2)

/-- `d[k] = v`: override in place when the key exists, else append,
as Python dicts preserve insertion order. -/
def Dict.set (d : Dict) (k : String) (v : PyVal) : Dict :=
  if d.entries.any (fun kv => kv.1 = k) then
    ⟨d.entries.map (fun kv => if kv.1 = k then (k, v) else kv)⟩
  else ⟨d.entries ++ [(k, v)]⟩

/-- `d.update(e)`: fold every entry of `e` into `d`, overriding existing keys. -/
def Dict.updateWith (d e : Dict) : Dict :=
  e.entries.foldl (fun acc kv => Dict.set acc kv.1 kv.2) d

/-- A bus message: type, data payload and context (`ovos_bus_client.Message`). -/
structure Message where
  msg_type : String
  data : Dict
  context : Dict
deriving DecidableEq, Repr

/-- Modelled from the spec: `Message.forward` produces a new message of the
given type carrying the original message's context (§6: outbound failure
events carry the original utterance context). -/
def Message.forward (m : Message) (t : String) (d : Dict) : Message :=
  ⟨t, d, m.context⟩

/-- Modelled from the spec: `Message.reply` produces a new message of the
given type carrying the original message's context (§4.4: the outbound
success event derives from the original event). -/
def Message.reply (m : Message) (t : String) (d : Dict) : Message :=
  ⟨t, d, m.context⟩

/-- The `IntentMatch` namedtuple of the source: service name, nullable
intent type, intent data, nullable skill id and the matched utterance. -/
structure IntentMatch where
  intent_service : String
  intent_type : Option String
  intent_data : Dict
  skill_id : Option String
  utterance : String
deriving DecidableEq, Repr

/-- Python truthiness of a nullable string field (`if match.intent_type:`):
`None` and the empty string are falsy. -/
def optTruthy : Option String → Bool
  | some s => s ≠ ""
  | Option.none => false

/-- An interpreter stage: `interpret(utterances, lang, message)` returning a
match or `None`; a raised exception is modelled by `Except.error`. -/
abbrev StageFn := PyVal → String → Message → Except String (Option IntentMatch)

/-- One entry of a session's Context Stack, as built by
`handle_add_context`: `{confidence, data, match, key, origin}`
(the `match` field is called `match_text` because `match` is reserved). -/
structure ContextEntry where
  confidence : Rat
  data : List (PyVal × PyVal)
  match_text : PyVal
  key : PyVal
  origin : PyVal
deriving DecidableEq, Repr

/-- A session record (`ovos_bus_client.session.Session`), modelled from the
spec §3: id, resolved language, active-skill stack (timestamps abstracted
away), Context Stack, configured pipeline, and an abstract expiry state
(`isExpired` says whether `sess.expired()` would hold now; `touched` says
whether the deadline was refreshed by the current call). -/
structure Session where
  session_id : String
  lang : String
  active_skills : List String
  context_stack : List ContextEntry
  pipeline : List String
  isExpired : Bool
  touched : Bool
deriving DecidableEq, Repr

/-- Modelled from the spec: the default system stage ordering of §4.3,
used when a session does not override its pipeline. -/
def defaultPipeline : List String :=
  ["converse", "padatious_high", "adapt", "common_qa", "fallback_high",
   "padatious_medium", "fallback_medium", "padatious_low", "fallback_low"]

/-- Modelled from the spec: a freshly created session record for the given
id — empty active-skill stack, empty Context Stack, default pipeline,
unexpired (§3 Session lifecycle). -/
def freshSession (sid : String) : Session :=
  ⟨sid, "", [], [], defaultPipeline, false, false⟩

/-- Modelled from the spec: the opaque full serialization of a session
(`sess.serialize()`), stamped into `message.context["session"]`. -/
def Session.serialize (s : Session) : PyVal :=
  .sessionData s.session_id s.lang s.active_skills s.pipeline

/-- Modelled from the spec: the Session Store (SessionManager) — the map of
live session records plus a count of resync broadcasts sent
(`SessionManager.sync`). -/
structure SessionStore where
  sessions : List (String × Session)
  syncCount : Nat
deriving DecidableEq, Repr

/-- Modelled from the spec: `SessionManager.update(sess)` persists the
record under its id (§4.2). -/
def SessionStore.updateSession (st : SessionStore) (s : Session) : SessionStore :=
  ⟨(s.session_id, s) :: st.sessions.filter (fun kv => kv.1 ≠ s.session_id), st.syncCount⟩

/-- Modelled from the spec: `SessionManager.sync(message)` broadcasts the
default session state to all observers (§6 Session resync broadcast);
only the count of broadcasts is observable in the model. -/
def SessionStore.sync (st : SessionStore) : SessionStore :=
  ⟨st.sessions, st.syncCount + 1⟩

/-- Modelled from the spec: `SessionManager.get(message)` resolves the
session addressed by the event (default id when none is supplied),
lazily creating it (§4.2 `resolve`). -/
def storeGet (st : SessionStore) (message : Message) : Session :=
  let sid := match Dict.get message.context "session_id" with
    | some (.str s) => s
    | _ => "default"
  match st.sessions.lookup sid with
  | some s => s
  | Option.none => freshSession sid

/-- Modelled from the spec: `SessionManager.reset_default_session()` replaces
the default session with a fresh record and returns it (§4.2 `validate`). -/
def resetDefaultSession (st : SessionStore) : Session × SessionStore :=
  let s := freshSession "default"
  (s, st.updateSession s)

/-- Modelled from the spec: `session.activate_skill` pushes the skill id to
the front of the active-skill stack, removing any prior occurrence (§4.2). -/
def activate_skill (sess : Session) (skill_id : String) : Session :=
  { sess with active_skills := skill_id :: sess.active_skills.filter (fun s => s ≠ skill_id) }

/-- Modelled from the spec: `ContextManager.inject_context` appends an entry
to the session's Context Stack, most recent first (§3 Context Stack). -/
def inject_context (stack : List ContextEntry) (e : ContextEntry) : List ContextEntry :=
  e :: stack

/-- Modelled from the spec: `ContextManager.remove_context` removes every
entry addressed by the given name through its `key` or through a tag in
its `data` pairs (§3: entries are addressed for removal by key/tag). -/
def remove_context (stack : List ContextEntry) (name : PyVal) : List ContextEntry :=
  stack.filter (fun e => ¬ (e.key = name ∨ e.data.any (fun p => p.2 = name)))

/-- Modelled from the spec: `ContextManager.clear_context` empties the
Context Stack (§4.2). -/
def clear_context (_stack : List ContextEntry) : List ContextEntry :=
  []

/-- The model's parameters: the external collaborators of the dispatch core —
transformer plugins, the locale helpers (`get_message_lang`,
`get_full_lang_code`, `get_valid_languages`), the twelve interpreter-stage
capabilities of the matcher registry, and the configured error sound. -/
structure Env where
  utterancePlugins : PyVal → Dict → Except String (PyVal × Dict)
  metadataPlugins : Dict → Except String Dict
  getMessageLang : Message → String
  getFullLangCode : PyVal → String
  validLangs : List String
  padatiousAvailable : Bool
  converse : StageFn
  padatiousHigh : StageFn
  padatiousMedium : StageFn
  padatiousLow : StageFn
  padaciosoHigh : StageFn
  padaciosoMedium : StageFn
  padaciosoLow : StageFn
  adapt : StageFn
  common_qa : StageFn
  fallbackHigh : StageFn
  fallbackMedium : StageFn
  fallbackLow : StageFn
  errorSound : String

/-- The `matchers` registry built by `get_pipeline` (source lines 207-230):
the twelve fixed stage names, with the padatious slots falling back to
padacioso when padatious is unavailable (source lines 209-215). -/
def Env.matchers (env : Env) : String → Option StageFn := fun k =>
  if k = "converse" then some env.converse
  else if k = "padatious_high" then
    some (if env.padatiousAvailable then env.padatiousHigh else env.padaciosoHigh)
  else if k = "padacioso_high" then some env.padaciosoHigh
  else if k = "adapt" then some env.adapt
  else if k = "common_qa" then some env.common_qa
  else if k = "fallback_high" then some env.fallbackHigh
  else if k = "padatious_medium" then
    some (if env.padatiousAvailable then env.padatiousMedium else env.padaciosoMedium)
  else if k = "padacioso_medium" then some env.padaciosoMedium
  else if k = "fallback_medium" then some env.fallbackMedium
  else if k = "padatious_low" then
    some (if env.padatiousAvailable then env.padatiousLow else env.padaciosoLow)
  else if k = "padacioso_low" then some env.padaciosoLow
  else if k = "fallback_low" then some env.fallbackLow
  else Option.none

/-- Resolve a list of stage names against the registry, left to right;
the first unknown name raises (the `KeyError` of `[matchers[k] for k in
pipeline]`).  The name is kept with each resolved stage so invocation
order can be stated. -/
def resolveStages (env : Env) : List String → Except String (List (String × StageFn))
  | [] => .ok []
  | k :: ks =>
    match env.matchers k with
    | some f => (resolveStages env ks).map (fun rest => (k, f) :: rest)
    | Option.none => .error k

/-- `IntentService.get_pipeline` (source lines 200-233): filter the session's
configured stage names by the skip list, then resolve each against the
matcher registry. -/
def get_pipeline (env : Env) (skips : List String) (sess : Session) :
    Except String (List (String × StageFn)) :=
  resolveStages env (sess.pipeline.filter (fun k => ¬ k ∈ skips))

/-- The fixed precedence order of context keys inspected by
`disambiguate_lang` (source lines 185-187). -/
def langKeys : List String := ["stt_lang", "request_lang", "detected_lang"]

/-- The candidate loop of `IntentService.disambiguate_lang` (source lines
188-196): for each key present in the context, normalize the value with
`get_full_lang_code` and accept it when it is an enabled language;
otherwise log and move on. -/
def disambiguateLoop (env : Env) (msg : Message) : List String → Option String
  | [] => Option.none
  | k :: ks =>
    match Dict.get msg.context k with
    | some v =>
      let fv := env.getFullLangCode v
      if fv ∈ env.validLangs then some fv
      else disambiguateLoop env msg ks
    | Option.none => disambiguateLoop env msg ks

/-- `IntentService.disambiguate_lang` (source lines 175-198): the first
accepted candidate, else the message's default language. -/
def disambiguate_lang (env : Env) (msg : Message) : String :=
  (disambiguateLoop env msg langKeys).getD (env.getMessageLang msg)

/-- `IntentService._validate_session` (source lines 235-254): for the default
session, reset it when expired and update its language when changed,
persisting and broadcasting exactly once when anything was updated; for a
non-default session, update the language unconditionally and persist with
no broadcast; always touch the deadline. -/
def validate_session (st : SessionStore) (message : Message) (lang : String) :
    Session × SessionStore :=
  let sess0 := storeGet st message
  if sess0.session_id = "default" then
    let p1 : Session × SessionStore × Bool :=
      if sess0.isExpired then
        let r := resetDefaultSession st
        (r.1, r.2, true)
      else (sess0, st, false)
    let p2 : Session × Bool :=
      if lang ≠ p1.1.lang then ({ p1.1 with lang := lang }, true) else (p1.1, p1.2.2)
    let st2 := if p2.2 then (p1.2.1.updateSession p2.1).sync else p1.2.1
    ({ p2.1 with touched := true }, st2)
  else
    let sess1 := { sess0 with lang := lang }
    let st2 := st.updateSession sess1
    ({ sess1 with touched := true }, st2)

/-- `IntentService._handle_transformers` (source lines 160-173): tag the
message language into the context, run the utterance transformers, fold a
changed utterance list back into the data, then run the metadata
transformers.  A plugin fault propagates to the caller. -/
def handleTransformers (env : Env) (message : Message) : Except String Message :=
  let lang := env.getMessageLang message
  let original := (Dict.get message.data "utterances").getD (.list [])
  let message1 : Message := { message with context := Dict.set message.context "lang" (.str lang) }
  match env.utterancePlugins original message1.context with
  | .error e => .error e
  | .ok (utterances, ctx) =>
    let message2 : Message := { message1 with context := ctx }
    let message3 : Message :=
      if original = utterances then message2
      else { message2 with data := Dict.set message2.data "utterances" utterances }
    match env.metadataPlugins message3.context with
    | .error e => .error e
    | .ok ctx2 => .ok { message3 with context := ctx2 }

/-- The matching loop of `handle_utterance` (source lines 305-311): run the
resolved stages in order, stopping at the first stage that returns a match
or raises.  Besides the loop's outcome, the list of invoked stage names is
returned so that invocation order can be stated. -/
def runStages : List (String × StageFn) → PyVal → String → Message →
    Except String (Option IntentMatch) × List String
  | [], _, _, _ => (.ok Option.none, [])
  | g :: rest, utts, lang, msg =>
    match g.2 utts lang msg with
    | .error e => (.error e, [g.1])
    | .ok (some m) => (.ok (some m), [g.1])
    | .ok Option.none =>
      let r := runStages rest utts lang msg
      (r.1, g.1 :: r.2)

/-- `IntentService.send_complete_intent_failure` (source lines 345-353):
the audio error-sound event followed by the structured failure event,
both forwarded from the original message. -/
def send_complete_intent_failure (env : Env) (message : Message) : List Message :=
  [message.forward "mycroft.audio.play_sound" ⟨[("uri", .str env.errorSound)]⟩,
   message.forward "complete_intent_failure" ⟨[]⟩]

/-- Outcome of the result-emitter step: the (possibly stamped) message, the
bus events emitted by the handler, and the session after any activation. -/
structure EmitOut where
  message : Message
  emitted : List Message
  sess : Session
deriving Repr

/-- The result-emitter step of `handle_utterance` (source lines 314-335):
on a match, stamp the matched utterance into the data, activate and stamp
the skill when the match names one, and publish the intent event when the
match carries a truthy intent type; on no match, publish the complete
intent failure. -/
def emitMatch (env : Env) (sess : Session) (message : Message) :
    Option IntentMatch → EmitOut
  | some m =>
    let message1 : Message :=
      { message with data := Dict.set message.data "utterance" (.str m.utterance) }
    let p : Message × Session :=
      if optTruthy m.skill_id then
        ({ message1 with
            context := Dict.set message1.context "skill_id" (.str (m.skill_id.getD "")) },
         activate_skill sess (m.skill_id.getD ""))
      else (message1, sess)
    if optTruthy m.intent_type then
      ⟨p.1, [p.1.reply (m.intent_type.getD "") (Dict.updateWith p.1.data m.intent_data)], p.2⟩
    else ⟨p.1, [], p.2⟩
  | Option.none => ⟨message, send_complete_intent_failure env message, sess⟩

/-- The observable outcome of one `handle_utterance` call: the handler's
return value (`none` when the outer `except` caught a fault and the
handler returned `None`), the bus events it emitted, the session store
afterwards, and the names of the stages that were invoked. -/
structure HandleResult where
  retval : Option (Option IntentMatch × Dict)
  emitted : List Message
  store : SessionStore
  invoked : List String

/-- `message.data.get('utterances', [])` (source line 296). -/
def dispatchUtts (message : Message) : PyVal :=
  (Dict.get message.data "utterances").getD (.list [])

/-- `message.context["session"] = sess.serialize()` (source line 302). -/
def sessionCtxMessage (message : Message) (sess : Session) : Message :=
  { message with context := Dict.set message.context "session" sess.serialize }

/-- The body of `handle_utterance` after the transformer step (source lines
289-340): disambiguate the language (the `setup_locale` call has its own
inner `except` and no observable effect in the model), validate the
session, stamp it into the context, build the pipeline, run the matching
loop, emit the result, and resync the default session.  A `KeyError` from
pipeline building or a stage fault aborts to the outer `except`. -/
def handlePost (env : Env) (st : SessionStore) (message : Message) : HandleResult :=
  let lang := disambiguate_lang env message
  let utterances := dispatchUtts message
  let sess := (validate_session st message lang).1
  let st2 := (validate_session st message lang).2
  let message2 := sessionCtxMessage message sess
  match get_pipeline env [] sess with
  | .error _ => ⟨Option.none, [], st2, []⟩
  | .ok stages =>
    match runStages stages utterances lang message2 with
    | (.error _, invoked) => ⟨Option.none, [], st2, invoked⟩
    | (.ok matchOpt, invoked) =>
      let er := emitMatch env sess message2 matchOpt
      let st3 := if sess.session_id = "default" then st2.sync else st2
      ⟨some (matchOpt, er.message.context), er.emitted, st3, invoked⟩

/-- `IntentService.handle_utterance` (source lines 256-343): the whole body
runs under one outer `try`; any uncaught fault is logged and the handler
returns `None` having emitted nothing further. -/
def handle_utterance (env : Env) (st : SessionStore) (message : Message) : HandleResult :=
  match handleTransformers env message with
  | .error _ => ⟨Option.none, [], st, []⟩
  | .ok message2 => handlePost env st message2

/-- `IntentService.handle_add_context` (source lines 403-424): build the
context entity — confidence 1.0, the `(word, context)` data pair, match
text, key and origin — and inject it into the session's Context Stack.
`word` and `origin` default to the empty string when absent or falsy, and
a non-string `word` is coerced with `str`. -/
def handle_add_context (message : Message) (sess : Session) : Session :=
  let context := (Dict.get message.data "context").getD .none
  let word0 := (Dict.get message.data "word").getD .none
  let word1 := if word0.truthy then word0 else .str ""
  let origin0 := (Dict.get message.data "origin").getD .none
  let origin := if origin0.truthy then origin0 else .str ""
  let word : PyVal := if word1.isStr then word1 else .str word1.pyStr
  let entity : ContextEntry :=
    ⟨(1 : Rat), [(word, context)], word, word, origin⟩
  { sess with context_stack := inject_context sess.context_stack entity }

/-- `IntentService.handle_remove_context` (source lines 425-434): when the
message names a truthy context, remove it from the session's Context
Stack. -/
def handle_remove_context (message : Message) (sess : Session) : Session :=
  let context := (Dict.get message.data "context").getD .none
  if context.truthy then
    { sess with context_stack := remove_context sess.context_stack context }
  else sess

/-- `IntentService.handle_clear_context` (source lines 436-439): clear the
session's Context Stack. -/
def handle_clear_context (_message : Message) (sess : Session) : Session :=
  { sess with context_stack := clear_context sess.context_stack }

/-! ### Helper lemmas about the dispatch loop and stage resolution -/

theorem runStages_all_none (stages : List (String × StageFn)) (utts : PyVal) (lang : String)
    (msg : Message) (h : ∀ g ∈ stages, g.2 utts lang msg = .ok Option.none) :
    runStages stages utts lang msg = (.ok Option.none, stages.map (fun g => g.1)) := by
  induction stages with
  | nil => rfl
  | cons g rest ih =>
    have hg := h g (List.mem_cons_self g rest)
    simp only [runStages, hg, List.map_cons]
    rw [ih (fun q hq => h q (List.mem_cons_of_mem g hq))]

theorem runStages_first_some (pre post : List (String × StageFn)) (g : String × StageFn)
    (utts : PyVal) (lang : String) (msg : Message) (m : IntentMatch)
    (hpre : ∀ q ∈ pre, q.2 utts lang msg = .ok Option.none)
    (hg : g.2 utts lang msg = .ok (some m)) :
    runStages (pre ++ g :: post) utts lang msg =
      (.ok (some m), pre.map (fun q => q.1) ++ [g.1]) := by
  induction pre with
  | nil => simp only [List.nil_append, runStages, hg, List.map_nil]
  | cons q rest ih =>
    have hq := hpre q (List.mem_cons_self q rest)
    simp only [List.cons_append, runStages, hq, List.map_cons, List.cons_append,
      List.append_eq]
    rw [ih (fun p hp => hpre p (List.mem_cons_of_mem q hp))]

theorem runStages_first_error (pre post : List (String × StageFn)) (g : String × StageFn)
    (utts : PyVal) (lang : String) (msg : Message) (e : String)
    (hpre : ∀ q ∈ pre, q.2 utts lang msg = .ok Option.none)
    (hg : g.2 utts lang msg = .error e) :
    runStages (pre ++ g :: post) utts lang msg =
      (.error e, pre.map (fun q => q.1) ++ [g.1]) := by
  induction pre with
  | nil => simp only [List.nil_append, runStages, hg, List.map_nil]
  | cons q rest ih =>
    have hq := hpre q (List.mem_cons_self q rest)
    simp only [List.cons_append, runStages, hq, List.map_cons, List.cons_append,
      List.append_eq]
    rw [ih (fun p hp => hpre p (List.mem_cons_of_mem q hp))]

theorem resolveStages_ok_names (env : Env) (ks : List String) (l : List (String × StageFn))
    (h : resolveStages env ks = .ok l) : l.map (fun g => g.1) = ks := by
  induction ks generalizing l with
  | nil =>
    simp only [resolveStages] at h
    cases h
    rfl
  | cons k ks ih =>
    simp only [resolveStages] at h
    cases hm : env.matchers k with
    | none => rw [hm] at h; cases h
    | some f =>
      rw [hm] at h
      cases hr : resolveStages env ks with
      | error e => rw [hr] at h; cases h
      | ok rest =>
        rw [hr] at h
        cases h
        simp only [List.map_cons, ih rest hr]

theorem resolveStages_error_of_unknown (env : Env) (ks : List String)
    (h : ∃ k ∈ ks, env.matchers k = Option.none) :
    ∃ e, resolveStages env ks = .error e := by
  induction ks with
  | nil => simp at h
  | cons k ks ih =>
    cases hm : env.matchers k with
    | none => exact ⟨k, by simp only [resolveStages, hm]⟩
    | some f =>
      rcases h with ⟨k2, hk2, hnone⟩
      rcases List.mem_cons.mp hk2 with rfl | hk2
      · rw [hm] at hnone; cases hnone
      · rcases ih ⟨k2, hk2, hnone⟩ with ⟨e, he⟩
        exact ⟨e, by simp only [resolveStages, hm, he, Except.map]⟩

theorem resolveStages_ok_of_known (env : Env) (ks : List String)
    (h : ∀ k ∈ ks, (env.matchers k).isSome) :
    ∃ l, resolveStages env ks = .ok l := by
  induction ks with
  | nil => exact ⟨[], rfl⟩
  | cons k ks ih =>
    cases hm : env.matchers k with
    | none =>
      have := h k (List.mem_cons_self k ks)
      rw [hm] at this
      cases this
    | some f =>
      rcases ih (fun q hq => h q (List.mem_cons_of_mem k hq)) with ⟨l, hl⟩
      exact ⟨(k, f) :: l, by simp only [resolveStages, hm, hl, Except.map]⟩

/-! ### Helper lemmas about the language-disambiguation loop -/

theorem disambiguateLoop_eq_none (env : Env) (msg : Message) (ks : List String)
    (h : ∀ k ∈ ks, ∀ v, Dict.get msg.context k = some v →
      ¬ env.getFullLangCode v ∈ env.validLangs) :
    disambiguateLoop env msg ks = Option.none := by
  induction ks with
  | nil => rfl
  | cons k ks ih =>
    simp only [disambiguateLoop]
    cases hk : Dict.get msg.context k with
    | none => exact ih (fun q hq => h q (List.mem_cons_of_mem k hq))
    | some v =>
      have hv := h k (List.mem_cons_self k ks) v hk
      simp only [hv, if_false]
      exact ih (fun q hq => h q (List.mem_cons_of_mem k hq))

theorem disambiguateLoop_first (env : Env) (msg : Message) (pre post : List String)
    (k : String) (v : PyVal)
    (hpre : ∀ k2 ∈ pre, ∀ v2, Dict.get msg.context k2 = some v2 →
      ¬ env.getFullLangCode v2 ∈ env.validLangs)
    (hk : Dict.get msg.context k = some v)
    (hv : env.getFullLangCode v ∈ env.validLangs) :
    disambiguateLoop env msg (pre ++ k :: post) = some (env.getFullLangCode v) := by
  induction pre with
  | nil => simp only [List.nil_append, disambiguateLoop, hk, hv, if_true]
  | cons k2 rest ih =>
    simp only [List.cons_append, disambiguateLoop]
    cases hk2 : Dict.get msg.context k2 with
    | none => exact ih (fun q hq => hpre q (List.mem_cons_of_mem k2 hq))
    | some v2 =>
      have hv2 := hpre k2 (List.mem_cons_self k2 rest) v2 hk2
      simp only [hv2, if_false]
      exact ih (fun q hq => hpre q (List.mem_cons_of_mem k2 hq))

/-! ### C1 — short-circuit dispatch in configured order -/

/-- C1: for every utterance event and configured pipeline order, dispatch
invokes the stages strictly in their configured order and returns the
result of the first stage that returns a non-null match; stages after the
first match are never invoked (the invocation trace stops at the match,
whatever the match's fields hold); if every stage returns null, dispatch
produces no match having invoked every stage; and the stage list built by
`get_pipeline` carries the session's configured names in order. -/
theorem C1_dispatch_first_match :
    (∀ (pre post : List (String × StageFn)) (g : String × StageFn) (utts : PyVal)
       (lang : String) (msg : Message) (m : IntentMatch),
       (∀ q ∈ pre, q.2 utts lang msg = .ok Option.none) →
       g.2 utts lang msg = .ok (some m) →
       runStages (pre ++ g :: post) utts lang msg =
         (.ok (some m), pre.map (fun q => q.1) ++ [g.1])) ∧
    (∀ (stages : List (String × StageFn)) (utts : PyVal) (lang : String) (msg : Message),
       (∀ q ∈ stages, q.2 utts lang msg = .ok Option.none) →
       runStages stages utts lang msg = (.ok Option.none, stages.map (fun q => q.1))) ∧
    (∀ (env : Env) (skips : List String) (sess : Session)
       (stages : List (String × StageFn)),
       get_pipeline env skips sess = .ok stages →
       stages.map (fun q => q.1) = sess.pipeline.filter (fun k => ¬ k ∈ skips)) := by
  refine ⟨?_, ?_, ?_⟩
  · intro pre post g utts lang msg m hpre hg
    exact runStages_first_some pre post g utts lang msg m hpre hg
  · intro stages utts lang msg h
    exact runStages_all_none stages utts lang msg h
  · intro env skips sess stages h
    exact resolveStages_ok_names env _ stages h

/-- A stage that declines every utterance. -/
def stageNone : StageFn := fun _ _ _ => .ok Option.none

/-- A concrete match used by witnesses. -/
def matchW : IntentMatch := ⟨"svc", some "intent.w", ⟨[]⟩, Option.none, "hello"⟩

/-- A stage that always matches with `matchW`. -/
def stageW : StageFn := fun _ _ _ => .ok (some matchW)

/-- A minimal inbound utterance message. -/
def msgW : Message := ⟨"recognizer_loop:utterance", ⟨[("utterances", .list ["hello"])]⟩, ⟨[]⟩⟩

/-- Witness for C1 at a concrete three-stage pipeline: the match of the
second stage is returned and the third stage is never invoked. -/
theorem C1_dispatch_first_match_witness :
    runStages [("a", stageNone), ("b", stageW), ("c", stageNone)]
        (.list ["hello"]) "en-us" msgW =
      (.ok (some matchW), ["a", "b"]) :=
  C1_dispatch_first_match.1 [("a", stageNone)] [("c", stageNone)] ("b", stageW)
    (.list ["hello"]) "en-us" msgW matchW
    (fun q hq => by rw [List.mem_singleton.mp hq]; rfl)
    rfl

/-! ### C5 — language disambiguation precedence -/

/-- C5: language disambiguation inspects the context keys `stt_lang`,
`request_lang`, `detected_lang` in that fixed order, normalizes each
present candidate, and returns the first candidate whose normalized tag is
enabled; a candidate outside the enabled set is skipped without error, and
when no candidate qualifies the message's default language is returned. -/
theorem C5_lang_precedence :
    (∀ (env : Env) (msg : Message),
       (∀ k ∈ langKeys, ∀ v, Dict.get msg.context k = some v →
         ¬ env.getFullLangCode v ∈ env.validLangs) →
       disambiguate_lang env msg = env.getMessageLang msg) ∧
    (∀ (env : Env) (msg : Message) (pre post : List String) (k : String) (v : PyVal),
       langKeys = pre ++ k :: post →
       (∀ k2 ∈ pre, ∀ v2, Dict.get msg.context k2 = some v2 →
         ¬ env.getFullLangCode v2 ∈ env.validLangs) →
       Dict.get msg.context k = some v →
       env.getFullLangCode v ∈ env.validLangs →
       disambiguate_lang env msg = env.getFullLangCode v) := by
  constructor
  · intro env msg h
    unfold disambiguate_lang
    rw [disambiguateLoop_eq_none env msg langKeys h]
    rfl
  · intro env msg pre post k v hsplit hpre hk hv
    unfold disambiguate_lang
    rw [hsplit, disambiguateLoop_first env msg pre post k v hpre hk hv]
    rfl

/-- The environment used by the C5 witness: enabled languages `es-es` and
`en-us`, string candidates normalized to themselves. -/
def envLang : Env :=
  { utterancePlugins := fun u c => .ok (u, c)
    metadataPlugins := fun c => .ok c
    getMessageLang := fun _ => "en-us"
    getFullLangCode := fun v => match v with | .str s => s | _ => ""
    validLangs := ["es-es", "en-us"]
    padatiousAvailable := true
    converse := stageNone
    padatiousHigh := stageNone
    padatiousMedium := stageNone
    padatiousLow := stageNone
    padaciosoHigh := stageNone
    padaciosoMedium := stageNone
    padaciosoLow := stageNone
    adapt := stageNone
    common_qa := stageNone
    fallbackHigh := stageNone
    fallbackMedium := stageNone
    fallbackLow := stageNone
    errorSound := "snd/error.mp3" }

/-- A message carrying both `stt_lang="es-es"` and `request_lang="en-us"`. -/
def msgLang : Message :=
  ⟨"recognizer_loop:utterance", ⟨[]⟩,
   ⟨[("stt_lang", .str "es-es"), ("request_lang", .str "en-us")]⟩⟩

/-- Witness for C5: with `stt_lang="es-es"` and `request_lang="en-us"` both
present and both enabled, the `stt_lang` value wins. -/
theorem C5_lang_precedence_witness :
    disambiguate_lang envLang msgLang = "es-es" :=
  C5_lang_precedence.2 envLang msgLang [] ["request_lang", "detected_lang"]
    "stt_lang" (.str "es-es") rfl (fun k2 hk2 => by cases hk2) rfl
    (by simp [envLang])

/-! ### Unfolding lemmas for the utterance handler -/

theorem handle_utterance_transformers_error (env : Env) (st : SessionStore) (msg : Message)
    (e : String) (h : handleTransformers env msg = .error e) :
    handle_utterance env st msg = ⟨Option.none, [], st, []⟩ := by
  unfold handle_utterance
  rw [h]

theorem handle_utterance_transformers_ok (env : Env) (st : SessionStore) (msg msg2 : Message)
    (h : handleTransformers env msg = .ok msg2) :
    handle_utterance env st msg = handlePost env st msg2 := by
  unfold handle_utterance
  rw [h]

theorem handlePost_pipeline_error (env : Env) (st : SessionStore) (message : Message)
    (e : String)
    (h : get_pipeline env []
        (validate_session st message (disambiguate_lang env message)).1 = .error e) :
    handlePost env st message =
      ⟨Option.none, [], (validate_session st message (disambiguate_lang env message)).2, []⟩ := by
  simp only [handlePost]
  rw [h]

theorem handlePost_stage_error (env : Env) (st : SessionStore) (message : Message)
    (stages : List (String × StageFn)) (e : String) (invoked : List String)
    (hp : get_pipeline env []
        (validate_session st message (disambiguate_lang env message)).1 = .ok stages)
    (hr : runStages stages (dispatchUtts message) (disambiguate_lang env message)
        (sessionCtxMessage message
          (validate_session st message (disambiguate_lang env message)).1) =
      (.error e, invoked)) :
    handlePost env st message =
      ⟨Option.none, [], (validate_session st message (disambiguate_lang env message)).2,
       invoked⟩ := by
  simp only [handlePost]
  rw [hp]
  simp only []
  rw [hr]

theorem handlePost_stage_ok (env : Env) (st : SessionStore) (message : Message)
    (stages : List (String × StageFn)) (matchOpt : Option IntentMatch)
    (invoked : List String)
    (hp : get_pipeline env []
        (validate_session st message (disambiguate_lang env message)).1 = .ok stages)
    (hr : runStages stages (dispatchUtts message) (disambiguate_lang env message)
        (sessionCtxMessage message
          (validate_session st message (disambiguate_lang env message)).1) =
      (.ok matchOpt, invoked)) :
    handlePost env st message =
      ⟨some (matchOpt,
         (emitMatch env (validate_session st message (disambiguate_lang env message)).1
           (sessionCtxMessage message
             (validate_session st message (disambiguate_lang env message)).1)
           matchOpt).message.context),
       (emitMatch env (validate_session st message (disambiguate_lang env message)).1
         (sessionCtxMessage message
           (validate_session st message (disambiguate_lang env message)).1)
         matchOpt).emitted,
       (if (validate_session st message (disambiguate_lang env message)).1.session_id =
           "default"
        then (validate_session st message (disambiguate_lang env message)).2.sync
        else (validate_session st message (disambiguate_lang env message)).2),
       invoked⟩ := by
  simp only [handlePost]
  rw [hp]
  simp only []
  rw [hr]

/-! ### Concrete fixtures shared by witnesses and counterexamples -/

/-- An empty session store. -/
def st0 : SessionStore := ⟨[], 0⟩

/-- `envLang` with utterance transformers that raise. -/
def envBoom : Env := { envLang with utterancePlugins := fun _ _ => .error "boom" }

/-- `envLang` with a converse stage that raises instead of declining. -/
def envRaise : Env := { envLang with converse := fun _ _ _ => .error "stage boom" }

/-- A default session whose pipeline is just the converse stage. -/
def sessConv : Session := { freshSession "default" with pipeline := ["converse"], lang := "en-us" }

/-- A store holding `sessConv` as the default session. -/
def stRaise : SessionStore := ⟨[("default", sessConv)], 0⟩

/-- A default session whose pipeline names an unknown stage after a known one. -/
def sessBad : Session :=
  { freshSession "default" with pipeline := ["converse", "bogus_stage"], lang := "en-us" }

/-- A store holding `sessBad` as the default session. -/
def stC3 : SessionStore := ⟨[("default", sessBad)], 0⟩

/-- A default session whose pipeline names only an unknown stage. -/
def sessBad9 : Session :=
  { freshSession "default" with pipeline := ["bogus_stage"], lang := "en-us" }

/-- A store holding `sessBad9` as the default session. -/
def stBad9 : SessionStore := ⟨[("default", sessBad9)], 0⟩

/-- A minimal inbound utterance message for the C3 witness. -/
def msgC3 : Message := ⟨"recognizer_loop:utterance", ⟨[("utterances", .list ["hi"])]⟩, ⟨[]⟩⟩

/-- `msgC3` after the transformer step under `envLang`. -/
def msgC3post : Message :=
  ⟨"recognizer_loop:utterance", ⟨[("utterances", .list ["hi"])]⟩, ⟨[("lang", .str "en-us")]⟩⟩

/-- A minimal inbound utterance message for the C9 witness. -/
def msgC9 : Message := ⟨"recognizer_loop:utterance", ⟨[("utterances", .list ["ping"])]⟩, ⟨[]⟩⟩

/-- `msgC9` after the transformer step under `envLang` / `envRaise`. -/
def msgC9post : Message :=
  ⟨"recognizer_loop:utterance", ⟨[("utterances", .list ["ping"])]⟩, ⟨[("lang", .str "en-us")]⟩⟩

/-- A minimal inbound utterance message for the C2 counterexample and witness. -/
def msgC2 : Message :=
  ⟨"recognizer_loop:utterance", ⟨[("utterances", .list ["hello world"])]⟩, ⟨[]⟩⟩

/-- `msgC2` after the transformer step under `envRaise`. -/
def msgC2post : Message :=
  ⟨"recognizer_loop:utterance", ⟨[("utterances", .list ["hello world"])]⟩,
   ⟨[("lang", .str "en-us")]⟩⟩

/-! ### C3 — unknown stage names fail eagerly -/

/-- C3: building the pipeline resolves every configured, non-skipped stage
name against the registry before any stage executes; when some such name
is unknown an error is raised by `get_pipeline` itself, and an utterance
dispatched against such a session invokes no stage at all (no incomplete
run), the handler returning `None` with nothing emitted; when every name
is known the whole list resolves, in configured order. -/
theorem C3_unknown_stage_eager_error :
    (∀ (env : Env) (skips : List String) (sess : Session),
       (∃ k ∈ sess.pipeline.filter (fun k => ¬ k ∈ skips), env.matchers k = Option.none) →
       ∃ e, get_pipeline env skips sess = .error e) ∧
    (∀ (env : Env) (skips : List String) (sess : Session),
       (∀ k ∈ sess.pipeline.filter (fun k => ¬ k ∈ skips), (env.matchers k).isSome) →
       ∃ stages, get_pipeline env skips sess = .ok stages ∧
         stages.map (fun q => q.1) = sess.pipeline.filter (fun k => ¬ k ∈ skips)) ∧
    (∀ (env : Env) (st : SessionStore) (msg msg2 : Message),
       handleTransformers env msg = .ok msg2 →
       (∃ e, get_pipeline env []
           (validate_session st msg2 (disambiguate_lang env msg2)).1 = .error e) →
       (handle_utterance env st msg).invoked = [] ∧
       (handle_utterance env st msg).retval = Option.none ∧
       (handle_utterance env st msg).emitted = []) := by
  refine ⟨?_, ?_, ?_⟩
  · intro env skips sess h
    exact resolveStages_error_of_unknown env _ h
  · intro env skips sess h
    rcases resolveStages_ok_of_known env _ h with ⟨l, hl⟩
    exact ⟨l, hl, resolveStages_ok_names env _ l hl⟩
  · rintro env st msg msg2 htr ⟨e, he⟩
    rw [handle_utterance_transformers_ok env st msg msg2 htr,
        handlePost_pipeline_error env st msg2 e he]
    exact ⟨rfl, rfl, rfl⟩

/-- Witness for C3: a session pipeline naming `bogus_stage` makes
`get_pipeline` raise, and a dispatch against it invokes no stage,
returns `None` and emits nothing. -/
theorem C3_unknown_stage_eager_error_witness :
    (∃ e, get_pipeline envLang [] sessBad = .error e) ∧
    ((handle_utterance envLang stC3 msgC3).invoked = [] ∧
     (handle_utterance envLang stC3 msgC3).retval = Option.none ∧
     (handle_utterance envLang stC3 msgC3).emitted = []) :=
  ⟨C3_unknown_stage_eager_error.1 envLang [] sessBad ⟨"bogus_stage", by decide, rfl⟩,
   C3_unknown_stage_eager_error.2.2 envLang stC3 msgC3 msgC3post rfl ⟨"bogus_stage", rfl⟩⟩

/-! ### C9 — the top-level handler is a recovery boundary -/

/-- C9: the top-level utterance handler never propagates a fault: whether
the exception arises in transformer processing, in pipeline building
(unknown stage name), or inside an interpreter stage during dispatch,
`handle_utterance` catches it and returns `None`. -/
theorem C9_no_exception_propagation :
    ∀ (env : Env) (st : SessionStore) (msg : Message),
      ((∃ e, handleTransformers env msg = .error e) →
        (handle_utterance env st msg).retval = Option.none) ∧
      (∀ msg2, handleTransformers env msg = .ok msg2 →
        (∃ e, get_pipeline env []
            (validate_session st msg2 (disambiguate_lang env msg2)).1 = .error e) →
        (handle_utterance env st msg).retval = Option.none) ∧
      (∀ msg2 stages, handleTransformers env msg = .ok msg2 →
        get_pipeline env []
            (validate_session st msg2 (disambiguate_lang env msg2)).1 = .ok stages →
        (∃ e invoked, runStages stages (dispatchUtts msg2) (disambiguate_lang env msg2)
            (sessionCtxMessage msg2
              (validate_session st msg2 (disambiguate_lang env msg2)).1) =
          (.error e, invoked)) →
        (handle_utterance env st msg).retval = Option.none) := by
  intro env st msg
  refine ⟨?_, ?_, ?_⟩
  · rintro ⟨e, he⟩
    rw [handle_utterance_transformers_error env st msg e he]
  · rintro msg2 htr ⟨e, he⟩
    rw [handle_utterance_transformers_ok env st msg msg2 htr,
        handlePost_pipeline_error env st msg2 e he]
  · rintro msg2 stages htr hp ⟨e, invoked, hr⟩
    rw [handle_utterance_transformers_ok env st msg msg2 htr,
        handlePost_stage_error env st msg2 stages e invoked hp hr]

/-- Witness for C9 at concrete inputs covering all three fault sources:
a raising transformer, an unknown stage name, and a raising stage. -/
theorem C9_no_exception_propagation_witness :
    (handle_utterance envBoom st0 msgC9).retval = Option.none ∧
    (handle_utterance envLang stBad9 msgC9).retval = Option.none ∧
    (handle_utterance envRaise stRaise msgC9).retval = Option.none :=
  ⟨(C9_no_exception_propagation envBoom st0 msgC9).1 ⟨"boom", rfl⟩,
   (C9_no_exception_propagation envLang stBad9 msgC9).2.1 msgC9post rfl
     ⟨"bogus_stage", rfl⟩,
   (C9_no_exception_propagation envRaise stRaise msgC9).2.2 msgC9post
     [("converse", envRaise.converse)] rfl rfl ⟨"stage boom", ["converse"], rfl⟩⟩

/-! ### C2 — a stage fault is caught and logged, but silently dropped -/

/-- Counterexample to C2 as stated: with the converse stage raising, the
handler catches the fault and returns `None`, but it emits no event at
all — in particular neither the audio failure indication nor the
structured `complete_intent_failure` event that the claim requires; only
the log records the fault.  The invocation trace shows the raising stage
was reached. -/
theorem C2_stage_fault_counterexample :
    (handle_utterance envRaise stRaise msgC2).invoked = ["converse"] ∧
    (handle_utterance envRaise stRaise msgC2).retval = Option.none ∧
    (handle_utterance envRaise stRaise msgC2).emitted = [] :=
  ⟨rfl, rfl, rfl⟩

/-- C2 (amended): when a pipeline stage raises instead of returning null,
the exception is caught at the top-level utterance handler and logged and
the handler does not crash or propagate the fault; however the
failure-notification path is NOT taken — no audible failure indication
and no structured failure event is published for that utterance, which is
dropped with only a log record. -/
theorem C2_stage_fault_caught :
    ∀ (env : Env) (st : SessionStore) (msg msg2 : Message)
      (pre post : List (String × StageFn)) (g : String × StageFn) (e : String),
      handleTransformers env msg = .ok msg2 →
      get_pipeline env [] (validate_session st msg2 (disambiguate_lang env msg2)).1 =
        .ok (pre ++ g :: post) →
      (∀ q ∈ pre, q.2 (dispatchUtts msg2) (disambiguate_lang env msg2)
          (sessionCtxMessage msg2
            (validate_session st msg2 (disambiguate_lang env msg2)).1) =
        .ok Option.none) →
      g.2 (dispatchUtts msg2) (disambiguate_lang env msg2)
          (sessionCtxMessage msg2
            (validate_session st msg2 (disambiguate_lang env msg2)).1) =
        .error e →
      (handle_utterance env st msg).retval = Option.none ∧
      (handle_utterance env st msg).emitted = [] ∧
      (handle_utterance env st msg).invoked = pre.map (fun q => q.1) ++ [g.1] := by
  intro env st msg msg2 pre post g e htr hp hpre hg
  have hr := runStages_first_error pre post g _ _ _ e hpre hg
  rw [handle_utterance_transformers_ok env st msg msg2 htr,
      handlePost_stage_error env st msg2 (pre ++ g :: post) e
        (pre.map (fun q => q.1) ++ [g.1]) hp hr]
  exact ⟨rfl, rfl, rfl⟩

/-- Witness for the amended C2 at the concrete raising-stage input. -/
theorem C2_stage_fault_caught_witness :
    (handle_utterance envRaise stRaise msgC2).retval = Option.none ∧
    (handle_utterance envRaise stRaise msgC2).emitted = [] ∧
    (handle_utterance envRaise stRaise msgC2).invoked = ["converse"] :=
  C2_stage_fault_caught envRaise stRaise msgC2 msgC2post [] []
    ("converse", envRaise.converse) "stage boom" rfl rfl
    (fun q hq => by cases hq) rfl

/-! ### Dict lookup lemmas -/

theorem find_override_ne (l : List (String × PyVal)) (k k2 : String) (v : PyVal)
    (h : ¬ k2 = k) :
    (l.map (fun kv => if kv.1 = k then (k, v) else kv)).find?
        (fun kv => decide (kv.1 = k2)) =
      l.find? (fun kv => decide (kv.1 = k2)) := by
  induction l with
  | nil => rfl
  | cons kv l ih =>
    simp only [List.map_cons, List.find?_cons]
    by_cases hk : kv.1 = k
    · have h2 : ¬ kv.1 = k2 := by rw [hk]; exact fun hh => h hh.symm
      have h3 : ¬ k = k2 := fun hh => h hh.symm
      simp only [hk, if_true, decide_eq_false h3, decide_eq_false h2, ih]
    · simp only [hk, if_false, ih]

theorem find_append_single_ne (l : List (String × PyVal)) (k k2 : String) (v : PyVal)
    (h : ¬ k2 = k) :
    (l ++ [(k, v)]).find? (fun kv => decide (kv.1 = k2)) =
      l.find? (fun kv => decide (kv.1 = k2)) := by
  induction l with
  | nil =>
    have h3 : ¬ k = k2 := fun hh => h hh.symm
    simp only [List.nil_append, List.find?_cons, decide_eq_false h3, List.find?_nil]
  | cons kv l ih =>
    simp only [List.cons_append, List.find?_cons]
    by_cases hk : kv.1 = k2
    · simp only [hk, decide_eq_true_eq]
      simp [hk]
    · simp only [decide_eq_false hk, ih]

/-- Setting one key leaves every other key's lookup unchanged. -/
theorem Dict.get_set_ne (d : Dict) (k k2 : String) (v : PyVal) (h : ¬ k2 = k) :
    Dict.get (Dict.set d k v) k2 = Dict.get d k2 := by
  unfold Dict.get Dict.set
  by_cases hex : d.entries.any (fun kv => kv.1 = k) = true
  · rw [if_pos hex]
    exact congrArg (Option.map fun kv => kv.2) (find_override_ne d.entries k k2 v h)
  · rw [if_neg hex]
    exact congrArg (Option.map fun kv => kv.2) (find_append_single_ne d.entries k k2 v h)

/-! ### C6 — pipeline exhaustion publishes exactly the two failure events -/

/-- C6: when every pipeline stage returns null, the handler publishes
exactly one audio failure-notification event and exactly one structured
`complete_intent_failure` event, both forwarded with the handled
message's context (which agrees with the event's context on every key the
handler did not itself stamp), and publishes zero other events; the
handler returns the null match together with that context. -/
theorem C6_exhaustion_failure_events :
    ∀ (env : Env) (st : SessionStore) (msg msg2 : Message)
      (stages : List (String × StageFn)),
      handleTransformers env msg = .ok msg2 →
      get_pipeline env [] (validate_session st msg2 (disambiguate_lang env msg2)).1 =
        .ok stages →
      (∀ q ∈ stages, q.2 (dispatchUtts msg2) (disambiguate_lang env msg2)
          (sessionCtxMessage msg2
            (validate_session st msg2 (disambiguate_lang env msg2)).1) =
        .ok Option.none) →
      (handle_utterance env st msg).emitted =
        [(sessionCtxMessage msg2
            (validate_session st msg2 (disambiguate_lang env msg2)).1).forward
           "mycroft.audio.play_sound" ⟨[("uri", .str env.errorSound)]⟩,
         (sessionCtxMessage msg2
            (validate_session st msg2 (disambiguate_lang env msg2)).1).forward
           "complete_intent_failure" ⟨[]⟩] ∧
      (∀ m ∈ (handle_utterance env st msg).emitted,
        m.context = (sessionCtxMessage msg2
            (validate_session st msg2 (disambiguate_lang env msg2)).1).context ∧
        (m.msg_type = "mycroft.audio.play_sound" ∨
         m.msg_type = "complete_intent_failure")) ∧
      (∀ k, ¬ k = "session" →
        Dict.get (sessionCtxMessage msg2
            (validate_session st msg2 (disambiguate_lang env msg2)).1).context k =
          Dict.get msg2.context k) ∧
      (handle_utterance env st msg).retval =
        some (Option.none,
          (sessionCtxMessage msg2
            (validate_session st msg2 (disambiguate_lang env msg2)).1).context) := by
  intro env st msg msg2 stages htr hp hnone
  have hr := runStages_all_none stages (dispatchUtts msg2) (disambiguate_lang env msg2)
    (sessionCtxMessage msg2 (validate_session st msg2 (disambiguate_lang env msg2)).1) hnone
  rw [handle_utterance_transformers_ok env st msg msg2 htr,
      handlePost_stage_ok env st msg2 stages Option.none
        (stages.map (fun q => q.1)) hp hr]
  refine ⟨rfl, ?_, ?_, rfl⟩
  · intro m hm
    simp only [emitMatch, send_complete_intent_failure, Message.forward] at hm
    rcases List.mem_cons.mp hm with rfl | hm2
    · exact ⟨rfl, Or.inl rfl⟩
    · rcases List.mem_singleton.mp hm2 with rfl
      exact ⟨rfl, Or.inr rfl⟩
  · intro k hk
    simp only [sessionCtxMessage]
    exact Dict.get_set_ne msg2.context "session" k _ hk

/-- A default session that runs only the adapt stage. -/
def sessAdapt : Session :=
  { freshSession "default" with pipeline := ["adapt"], lang := "en-us" }

/-- A store holding `sessAdapt` as the default session. -/
def stC6 : SessionStore := ⟨[("default", sessAdapt)], 0⟩

/-- A minimal inbound utterance message for the C6 witness. -/
def msgC6 : Message := ⟨"recognizer_loop:utterance", ⟨[("utterances", .list ["zzz"])]⟩, ⟨[]⟩⟩

/-- `msgC6` after the transformer step under `envLang`. -/
def msgC6post : Message :=
  ⟨"recognizer_loop:utterance", ⟨[("utterances", .list ["zzz"])]⟩, ⟨[("lang", .str "en-us")]⟩⟩

/-- The context of `msgC6` as dispatched: language tag and session stamped. -/
def ctxC6 : Dict :=
  ⟨[("lang", .str "en-us"),
    ("session", .sessionData "default" "en-us" [] ["adapt"])]⟩

/-- Witness for C6 at a concrete exhausted pipeline: exactly the audio
failure event and the structured failure event are published. -/
theorem C6_exhaustion_failure_events_witness :
    (handle_utterance envLang stC6 msgC6).emitted =
      [⟨"mycroft.audio.play_sound", ⟨[("uri", .str "snd/error.mp3")]⟩, ctxC6⟩,
       ⟨"complete_intent_failure", ⟨[]⟩, ctxC6⟩] :=
  (C6_exhaustion_failure_events envLang stC6 msgC6 msgC6post
    [("adapt", envLang.adapt)] rfl rfl
    (fun q hq => by rw [List.mem_singleton.mp hq]; rfl)).1

/-! ### C7 — emission of the winning match -/

/-- The match returned by the C7 fixtures: a plain intent with an empty
payload and no skill id. -/
def matchC7 : IntentMatch := ⟨"converse", some "test.intent", ⟨[]⟩, Option.none, "hello"⟩

/-- `envLang` with a converse stage that matches with `matchC7`. -/
def envC7 : Env := { envLang with converse := fun _ _ _ => .ok (some matchC7) }

/-- A store holding a converse-only default session for the C7 fixtures. -/
def stC7 : SessionStore := ⟨[("default", sessConv)], 0⟩

/-- The inbound utterance message of the C7 fixtures. -/
def msgC7 : Message :=
  ⟨"recognizer_loop:utterance", ⟨[("utterances", .list ["hello"])]⟩, ⟨[]⟩⟩

/-- `msgC7` after the transformer step under `envC7`. -/
def msgC7post : Message :=
  ⟨"recognizer_loop:utterance", ⟨[("utterances", .list ["hello"])]⟩,
   ⟨[("lang", .str "en-us")]⟩⟩

/-- Counterexample to C7 as stated: the outbound event's data is NOT just
the original event's data fields merged with the match's intent payload —
the handler first stamps the matched utterance under the key
`"utterance"`, so the published data contains an `"utterance"` entry that
neither the original data nor the (empty) payload holds. -/
theorem C7_emit_counterexample :
    (handle_utterance envC7 stC7 msgC7).emitted.map (fun m => m.data) =
      [⟨[("utterances", .list ["hello"]), ("utterance", .str "hello")]⟩] ∧
    Dict.updateWith msgC7.data matchC7.intent_data =
      ⟨[("utterances", .list ["hello"])]⟩ ∧
    ¬ (handle_utterance envC7 stC7 msgC7).emitted.map (fun m => m.data) =
      [Dict.updateWith msgC7.data matchC7.intent_data] :=
  ⟨rfl, rfl, by decide⟩

/-- C7 (amended): for every match produced by dispatch, if its intent type
is truthy (non-null and non-empty) then exactly one outbound event is
published, addressed to that intent type, whose data is the handled
message's data with `"utterance"` set to the match's source utterance and
then merged with (and overridden by) the match's intent payload; if the
intent type is null (or empty, hence falsy) no further event is
published — the stage fully self-handled the utterance. -/
theorem C7_emit_intent_event :
    ∀ (env : Env) (st : SessionStore) (msg msg2 : Message)
      (pre post : List (String × StageFn)) (g : String × StageFn) (m : IntentMatch),
      handleTransformers env msg = .ok msg2 →
      get_pipeline env [] (validate_session st msg2 (disambiguate_lang env msg2)).1 =
        .ok (pre ++ g :: post) →
      (∀ q ∈ pre, q.2 (dispatchUtts msg2) (disambiguate_lang env msg2)
          (sessionCtxMessage msg2
            (validate_session st msg2 (disambiguate_lang env msg2)).1) =
        .ok Option.none) →
      g.2 (dispatchUtts msg2) (disambiguate_lang env msg2)
          (sessionCtxMessage msg2
            (validate_session st msg2 (disambiguate_lang env msg2)).1) =
        .ok (some m) →
      (optTruthy m.intent_type = true →
        (handle_utterance env st msg).emitted =
          [⟨m.intent_type.getD "",
            Dict.updateWith
              (Dict.set (sessionCtxMessage msg2
                  (validate_session st msg2 (disambiguate_lang env msg2)).1).data
                "utterance" (.str m.utterance))
              m.intent_data,
            (if optTruthy m.skill_id then
              Dict.set (sessionCtxMessage msg2
                  (validate_session st msg2 (disambiguate_lang env msg2)).1).context
                "skill_id" (.str (m.skill_id.getD ""))
             else (sessionCtxMessage msg2
                (validate_session st msg2 (disambiguate_lang env msg2)).1).context)⟩]) ∧
      (optTruthy m.intent_type = false →
        (handle_utterance env st msg).emitted = []) := by
  intro env st msg msg2 pre post g m htr hp hpre hg
  have hr := runStages_first_some pre post g (dispatchUtts msg2)
    (disambiguate_lang env msg2)
    (sessionCtxMessage msg2 (validate_session st msg2 (disambiguate_lang env msg2)).1)
    m hpre hg
  rw [handle_utterance_transformers_ok env st msg msg2 htr,
      handlePost_stage_ok env st msg2 (pre ++ g :: post) (some m)
        (pre.map (fun q => q.1) ++ [g.1]) hp hr]
  constructor
  · intro hit
    by_cases hs : optTruthy m.skill_id = true
    · simp only [emitMatch, hit, hs, if_true, Message.reply]
    · simp only [emitMatch, hit, if_true, if_neg hs, Message.reply]
  · intro hit
    by_cases hs : optTruthy m.skill_id = true
    · simp only [emitMatch, hit, Bool.false_eq_true, if_false, hs, if_true]
    · simp only [emitMatch, hit, Bool.false_eq_true, if_false, if_neg hs]

/-- Witness for the amended C7 at the concrete matching stage: exactly one
event, addressed to `test.intent`, with the utterance stamped into its
data. -/
theorem C7_emit_intent_event_witness :
    (handle_utterance envC7 stC7 msgC7).emitted =
      [⟨"test.intent",
        ⟨[("utterances", .list ["hello"]), ("utterance", .str "hello")]⟩,
        ⟨[("lang", .str "en-us"),
          ("session", .sessionData "default" "en-us" [] ["converse"])]⟩⟩] :=
  (C7_emit_intent_event envC7 stC7 msgC7 msgC7post [] []
    ("converse", envC7.converse) matchC7 rfl rfl
    (fun q hq => by cases hq) rfl).1 rfl

/-! ### C4 — session validation -/

/-- C4: validating the default session after expiry yields a fresh record
(empty active-skill stack and Context Stack, deadline touched) and sends
exactly one resync broadcast; validating the unexpired default session
with an unchanged language sends zero broadcasts and leaves the store
untouched; validating a non-default session updates its language
unconditionally, persists the record, touches the deadline and sends no
broadcast. -/
theorem C4_validate_session_cases :
    ∀ (st : SessionStore) (msg : Message) (lang : String),
      ((storeGet st msg).session_id = "default" →
        (storeGet st msg).isExpired = true →
        (validate_session st msg lang).1.active_skills = [] ∧
        (validate_session st msg lang).1.context_stack = [] ∧
        (validate_session st msg lang).1.touched = true ∧
        (validate_session st msg lang).2.syncCount = st.syncCount + 1) ∧
      ((storeGet st msg).session_id = "default" →
        (storeGet st msg).isExpired = false →
        lang = (storeGet st msg).lang →
        (validate_session st msg lang).2.syncCount = st.syncCount ∧
        (validate_session st msg lang).2.sessions = st.sessions ∧
        (validate_session st msg lang).1.touched = true) ∧
      (¬ (storeGet st msg).session_id = "default" →
        (validate_session st msg lang).1.lang = lang ∧
        (validate_session st msg lang).1.touched = true ∧
        (validate_session st msg lang).2.sessions.lookup (storeGet st msg).session_id =
          some { storeGet st msg with lang := lang } ∧
        (validate_session st msg lang).2.syncCount = st.syncCount) := by
  intro st msg lang
  refine ⟨?_, ?_, ?_⟩
  · intro hid hexp
    by_cases hl : lang = ""
    · simp [validate_session, hid, hexp, hl, resetDefaultSession, freshSession,
        SessionStore.updateSession, SessionStore.sync]
    · simp [validate_session, hid, hexp, hl, resetDefaultSession, freshSession,
        SessionStore.updateSession, SessionStore.sync]
  · intro hid hexp hlang
    simp [validate_session, hid, hexp, hlang.symm]
  · intro hid
    simp only [validate_session, if_neg hid]
    simp [SessionStore.updateSession, List.lookup]

/-- An expired default session carrying one active skill. -/
def sessExpired : Session :=
  ⟨"default", "en-us", ["skill-a"], [], defaultPipeline, true, false⟩

/-- A store holding `sessExpired` as the default session. -/
def stExpired : SessionStore := ⟨[("default", sessExpired)], 3⟩

/-- A non-default session record. -/
def sessS1 : Session := { freshSession "s1" with lang := "pt-pt" }

/-- A store holding the non-default session `sessS1`. -/
def stS1 : SessionStore := ⟨[("s1", sessS1)], 5⟩

/-- A message with no session id (addresses the default session). -/
def msgPlain : Message := ⟨"recognizer_loop:utterance", ⟨[]⟩, ⟨[]⟩⟩

/-- A message addressing the explicit session `s1`. -/
def msgS1 : Message :=
  ⟨"recognizer_loop:utterance", ⟨[]⟩, ⟨[("session_id", .str "s1")]⟩⟩

/-- Witness for C4 at concrete inputs: the expired default session resets
with exactly one broadcast, and the non-default session gets its language
persisted with no broadcast. -/
theorem C4_validate_session_cases_witness :
    ((validate_session stExpired msgPlain "en-us").1.active_skills = [] ∧
     (validate_session stExpired msgPlain "en-us").1.context_stack = [] ∧
     (validate_session stExpired msgPlain "en-us").1.touched = true ∧
     (validate_session stExpired msgPlain "en-us").2.syncCount = stExpired.syncCount + 1) ∧
    ((validate_session stS1 msgS1 "es-es").1.lang = "es-es" ∧
     (validate_session stS1 msgS1 "es-es").1.touched = true ∧
     (validate_session stS1 msgS1 "es-es").2.sessions.lookup
         (storeGet stS1 msgS1).session_id =
       some { storeGet stS1 msgS1 with lang := "es-es" } ∧
     (validate_session stS1 msgS1 "es-es").2.syncCount = stS1.syncCount) :=
  ⟨(C4_validate_session_cases stExpired msgPlain "en-us").1 rfl rfl,
   (C4_validate_session_cases stS1 msgS1 "es-es").2.2 (by decide)⟩

/-! ### C8 — context mutation round-trips -/

/-- The add-context message `{context: "kitchen", word: "there"}`. -/
def msgAddKitchen : Message :=
  ⟨"add_context", ⟨[("context", .str "kitchen"), ("word", .str "there")]⟩, ⟨[]⟩⟩

/-- The remove-context message `{context: "kitchen"}`. -/
def msgRemoveKitchen : Message :=
  ⟨"remove_context", ⟨[("context", .str "kitchen")]⟩, ⟨[]⟩⟩

/-- C8: starting from an empty Context Stack, injecting
`{context: "kitchen", word: "there"}` and then removing `"kitchen"`
leaves the stack empty (the entry is keyed by the alias word but the
removal addresses its tag); and injecting any two entries and then
clearing leaves the stack empty in either injection order. -/
theorem C8_context_roundtrip :
    ∀ (sess : Session), sess.context_stack = [] →
      (handle_remove_context msgRemoveKitchen
          (handle_add_context msgAddKitchen sess)).context_stack = [] ∧
      (∀ mA mB : Message,
        (handle_clear_context mB
            (handle_add_context mB (handle_add_context mA sess))).context_stack = [] ∧
        (handle_clear_context mA
            (handle_add_context mA (handle_add_context mB sess))).context_stack = []) := by
  intro sess h
  constructor
  · simp [handle_add_context, handle_remove_context, inject_context, remove_context,
      msgAddKitchen, msgRemoveKitchen, Dict.get, List.find?, PyVal.truthy, h,
      List.filter]
  · intro mA mB
    exact ⟨rfl, rfl⟩

/-- Witness for C8 at the fresh default session. -/
theorem C8_context_roundtrip_witness :
    (handle_remove_context msgRemoveKitchen
        (handle_add_context msgAddKitchen (freshSession "default"))).context_stack = [] ∧
    (∀ mA mB : Message,
      (handle_clear_context mB
          (handle_add_context mB
            (handle_add_context mA (freshSession "default")))).context_stack = [] ∧
      (handle_clear_context mA
          (handle_add_context mA
            (handle_add_context mB (freshSession "default")))).context_stack = []) :=
  C8_context_roundtrip (freshSession "default") rfl

/-! ### C10 — the shape of an injected context entry -/

/-- The add-context message whose `word` and `origin` are the falsy
non-string `0`. -/
def msgC10 : Message :=
  ⟨"add_context",
   ⟨[("context", .str "kitchen"), ("word", .int 0), ("origin", .int 0)]⟩, ⟨[]⟩⟩

/-- The fresh session used by the C10 fixtures. -/
def sessC10 : Session := freshSession "default"

/-- Counterexample to C10 as stated: a present but falsy non-string `word`
(here `0`) is NOT coerced with `str` — the `or \x27\x27` default maps it to
the empty string first, so the entry's key is `""` rather than `"0"`;
likewise a falsy `origin` (here `0`) is replaced by the empty string
rather than kept as the message's origin value. -/
theorem C10_add_context_counterexample :
    ((handle_add_context msgC10 sessC10).context_stack.map (fun e => e.key) =
      [PyVal.str ""]) ∧
    ¬ ((handle_add_context msgC10 sessC10).context_stack.map (fun e => e.key) =
      [PyVal.str (PyVal.pyStr (.int 0))]) ∧
    ((handle_add_context msgC10 sessC10).context_stack.map (fun e => e.origin) =
      [PyVal.str ""]) ∧
    ¬ ((handle_add_context msgC10 sessC10).context_stack.map (fun e => e.origin) =
      [PyVal.int 0]) :=
  ⟨rfl, by decide, rfl, by decide⟩

/-- C10 (amended): every add-context message injects exactly one entry at
the front of the session's Context Stack, with confidence 1.0, data equal
to the single pair of the processed word and the raw context value, match
text equal to the key, origin equal to the message's origin when truthy
and the empty string otherwise, and key equal to the processed word — the
message's word when it is a string, the empty string when the word is
absent or falsy, and the `str` coercion of the word when it is a truthy
non-string — so the entry is keyed by the alias word, never by the
context name. -/
theorem C10_add_context_fields :
    ∀ (message : Message) (sess : Session) (E : ContextEntry),
      (handle_add_context message sess).context_stack = E :: sess.context_stack →
      E.confidence = 1 ∧
      E.match_text = E.key ∧
      E.data = [(E.key, (Dict.get message.data "context").getD .none)] ∧
      E.origin = (if ((Dict.get message.data "origin").getD .none).truthy
                  then (Dict.get message.data "origin").getD .none else .str "") ∧
      (∀ s, Dict.get message.data "word" = some (.str s) → E.key = .str s) ∧
      (Dict.get message.data "word" = Option.none → E.key = .str "") ∧
      (∀ v, Dict.get message.data "word" = some v → v.truthy = false →
        E.key = .str "") ∧
      (∀ v, Dict.get message.data "word" = some v → v.truthy = true →
        v.isStr = false → E.key = .str v.pyStr) := by
  intro message sess E h
  simp only [handle_add_context, inject_context, List.cons.injEq] at h
  have hE := h.1.symm
  subst hE
  refine ⟨rfl, rfl, rfl, rfl, ?_, ?_, ?_, ?_⟩
  · intro s hs
    by_cases he : s = ""
    · simp [hs, he, PyVal.truthy, PyVal.isStr]
    · simp [hs, he, PyVal.truthy, PyVal.isStr]
  · intro hs
    simp [hs, PyVal.truthy, PyVal.isStr]
  · intro v hv hfalsy
    simp [hv, hfalsy, PyVal.isStr]
  · intro v hv htruthy hnostr
    simp [hv, htruthy, hnostr]

/-- The add-context message whose `word` is the truthy non-string `5`. -/
def msgC10w : Message :=
  ⟨"add_context",
   ⟨[("context", .str "kitchen"), ("word", .int 5), ("origin", .str "remote")]⟩, ⟨[]⟩⟩

/-- The entry injected by `msgC10w` into a fresh session. -/
def entC10 : ContextEntry :=
  ⟨1, [(.str "5", .str "kitchen")], .str "5", .str "5", .str "remote"⟩

/-- Witness for the amended C10: the truthy non-string word `5` is
`str`-coerced into the key, and the truthy origin is kept. -/
theorem C10_add_context_fields_witness :
    entC10.confidence = 1 ∧
    entC10.key = .str (PyVal.pyStr (.int 5)) ∧
    entC10.origin = (if ((Dict.get msgC10w.data "origin").getD .none).truthy
                     then (Dict.get msgC10w.data "origin").getD .none else .str "") :=
  ⟨(C10_add_context_fields msgC10w sessC10 entC10 rfl).1,
   (C10_add_context_fields msgC10w sessC10 entC10 rfl).2.2.2.2.2.2.2
     (.int 5) rfl rfl rfl,
   (C10_add_context_fields msgC10w sessC10 entC10 rfl).2.2.2.1⟩

end OVOS
